import Mathlib

/-!
Verification of the ccproxy request-routing core (classifier rules, model
router, hook pipeline, credential forwarding) against its natural-language
specification.

The Python source operates on JSON-like `dict[str, Any]` request data.  We
shallowly embed those values as the inductive type `Value` below, Python
dicts as insertion-ordered association lists with unique keys (`SDict`),
and each hook as an explicit function from request data to request data
together with an optional raised-exception marker (Python exceptions are
modelled as `Option String` / `Except String` values; the string is the
exception kind and carries no other semantic weight).

Modelling conventions, noted once here:
  - Python floats are modelled with `Rat` (exact arithmetic); requests are
    JSON-like, so `Value` has no float constructor.
  - `str(x)` (`pyStr`) is faithful for scalars; for containers it returns a
    placeholder, and no theorem depends on the container cases.
  - Registry entries (LiteLLM `model_list` rows) are dicts whose
    `model_name`, when present, is a string — matching the collaborator
    interface; non-string model names are not modelled.
-/

/-- JSON-like Python value as carried in ccproxy request data dicts. -/
inductive Value where
  | none
  | bool (b : Bool)
  | int (n : Int)
  | str (s : String)
  | list (xs : List Value)
  | dict (entries : List (String × Value))

/-- Ordered association list modelling a Python `dict` with string keys. -/
abbrev SDict (α : Type) : Type := List (String × α)

/-- Python dict with string keys and arbitrary JSON-like values. -/
abbrev PyDict : Type := SDict Value

/-- `d.get(k)`: value at the first matching key, if present. -/
def pyGet {α : Type} : SDict α → String → Option α
  | [], _ => Option.none
  | (k', v') :: rest, k => if k' = k then some v' else pyGet rest k

/-- `d.get(k, default)`. -/
def pyGetD {α : Type} (d : SDict α) (k : String) (dflt : α) : α :=
  (pyGet d k).getD dflt

/-- `k in d`: key-membership test on a Python dict. -/
def pyContains {α : Type} (d : SDict α) (k : String) : Bool :=
  (pyGet d k).isSome

/-- `d[k] = v`: update the first occurrence of `k` in place, else append. -/
def pySet {α : Type} : SDict α → String → α → SDict α
  | [], k, v => [(k, v)]
  | (k', v') :: rest, k, v =>
      if k' = k then (k, v) :: rest else (k', v') :: pySet rest k v

/-- Python truthiness of a `Value` (`bool(v)`). -/
def Value.toBool : Value → Bool
  | .none => false
  | .bool b => b
  | .int n => n != 0
  | .str s => s ≠ ""
  | .list xs => !xs.isEmpty
  | .dict es => !es.isEmpty

/-- Python `v == s` for a string literal `s` (no coercion across types). -/
def Value.eqStr : Value → String → Bool
  | .str t, s => t = s
  | _, _ => false

/-- Python `str(v)` for the scalar values the hooks format into messages.
Container cases are placeholders; no theorem in this file depends on them. -/
def pyStr : Value → String
  | .str s => s
  | .int n => toString n
  | .bool true => "True"
  | .bool false => "False"
  | .none => "None"
  | .list _ => "[...]"
  | .dict _ => "\x7b...\x7d"

/-- Python `needle in hay` on strings: contiguous-substring test. -/
def strContains (hay needle : String) : Bool :=
  (List.range (hay.toList.length + 1)).any
    (fun i => needle.toList.isPrefixOf (hay.toList.drop i))

/-- Python `s.startswith(pre)` (list-based so it reduces in the kernel). -/
def strStartsWith (s pre : String) : Bool := pre.toList.isPrefixOf s.toList

/-- Python `s.strip()`: drop leading and trailing whitespace (list-based so
it reduces in the kernel). -/
def pyStrip (s : String) : String :=
  String.mk (((s.toList.dropWhile Char.isWhitespace).reverse.dropWhile
    Char.isWhitespace).reverse)

/-! ## URL hostname extraction

`ForwardOAuthHook` calls `urllib.parse.urlparse(api_base).hostname`.  We
model CPython's hostname extraction: strip a leading `scheme:` when the
scheme is well formed, require a `//` netloc marker, cut the netloc at the
first of `/?#`, drop userinfo up to the last `@`, handle a bracketed IPv6
literal, cut a `:port` suffix, and lowercase; an empty hostname is `None`.
(URLs containing whitespace or control characters, which CPython strips,
are not modelled.) -/

/-- Characters permitted in a URL scheme: letters, digits, `+ - .`. -/
def schemeChar (c : Char) : Bool :=
  c.isAlpha || c.isDigit || c = '+' || c = '-' || c = '.'

/-- A well-formed scheme is nonempty, starts with a letter, and uses only
scheme characters. -/
def validScheme : List Char → Bool
  | [] => false
  | c :: cs => c.isAlpha && (c :: cs).all schemeChar

/-- Drop a leading `scheme:` from the URL when the scheme is well formed. -/
def dropScheme (l : List Char) : List Char :=
  let pre := l.takeWhile (fun c => c ≠ ':')
  if pre.length < l.length && validScheme pre then l.drop (pre.length + 1) else l

/-- `urlparse(url).hostname`, lowercased; `Option.none` both for a URL with
no netloc and for an empty hostname (Python returns `None` in both cases). -/
def urlHostname (url : String) : Option String :=
  match dropScheme url.toList with
  | '/' :: '/' :: rest =>
      let netloc := rest.takeWhile (fun c => c ≠ '/' && c ≠ '?' && c ≠ '#')
      let hostinfo := (netloc.reverse.takeWhile (fun c => c ≠ '@')).reverse
      let host :=
        if hostinfo.contains '[' then
          ((hostinfo.dropWhile (fun c => c ≠ '[')).drop 1).takeWhile (fun c => c ≠ ']')
        else hostinfo.takeWhile (fun c => c ≠ ':')
      if host.isEmpty then Option.none
      else some (String.mk (host.map Char.toLower))
  | _ => Option.none

/-! ## ForwardOAuthHook (`hooks.py` lines 172-262) -/

/-- `model_config = {} if model_config is None else model_config`
(`hooks.py` lines 206-207). -/
def orEmptyIfNone : Value → Value
  | .none => .dict []
  | v => v

/-- Python `x or {}`: replace a falsy value by the empty dict. -/
def orEmptyIfFalsy (v : Value) : Value := if v.toBool then v else .dict []

/-- `hooks.py` lines 213-231: is the final destination Anthropic's direct
API?  A present `api_base` decides alone (parse failure, including a
non-string value raising inside the `try`, counts as not-Anthropic); else a
`custom_llm_provider` equal to `"anthropic"`; else, with neither set, the
routed model's `anthropic/` or `claude` prefix.  A non-string routed model
reached by the third test raises (`.startswith` on a non-string), which is
not caught there. -/
def isAnthropicDecision (apiBase customProvider routedModel : Value) :
    Except String Bool :=
  if apiBase.toBool then
    Except.ok (match apiBase with
      | .str ab =>
          (match urlHostname ab with
           | some h => h = "api.anthropic.com" || h = "anthropic.com"
           | Option.none => false)
      | _ => false)
  else if customProvider.eqStr "anthropic" then Except.ok true
  else if !apiBase.toBool && !customProvider.toBool then
    match routedModel with
    | .str rm => Except.ok (strStartsWith rm "anthropic/" || strStartsWith rm "claude")
    | _ => Except.error "AttributeError"
  else Except.ok false

/-- The is-target-primary-provider test on string-valued inputs (the shape
the routing stage records); `isAnthropicDecision` never raises on strings. -/
def is_anthropic_provider (api_base custom_provider routed_model : String) : Bool :=
  match isAnthropicDecision (.str api_base) (.str custom_provider) (.str routed_model) with
  | .ok b => b
  | .error _ => false

/-- `hooks.py` lines 236-260: read the OAuth token from the secret
side-channel and, when present, write it additively into
`provider_specific_header.extra_headers.authorization`. -/
def forwardAuth (data : PyDict) : PyDict × Option String :=
  match orEmptyIfFalsy (pyGetD data "secret_fields" .none) with
  | .dict secret_fields =>
    (match orEmptyIfFalsy (pyGetD secret_fields "raw_headers" .none) with
     | .dict raw_headers =>
       let authV := pyGetD raw_headers "authorization" (.str "")
       if authV.toBool then
         let data :=
           if pyContains data "provider_specific_header" then data
           else pySet data "provider_specific_header" (.dict [])
         (match pyGet data "provider_specific_header" with
          | some (.dict psh) =>
            let psh :=
              if pyContains psh "extra_headers" then psh
              else pySet psh "extra_headers" (.dict [])
            (match pyGet psh "extra_headers" with
             | some (.dict eh) =>
                 (pySet data "provider_specific_header"
                    (.dict (pySet psh "extra_headers"
                       (.dict (pySet eh "authorization" authV)))), Option.none)
             | _ => (data, some "TypeError"))
          | _ => (data, some "TypeError"))
       else (data, Option.none)
     | _ => (data, some "AttributeError"))
  | _ => (data, some "AttributeError")

/-- `ForwardOAuthHook.__call__` (`hooks.py` lines 175-262).  Returns the
(possibly mutated) request data plus the exception raised, if any; a raised
exception is caught at the pipeline level, not here. -/
def forwardOAuthHook (data : PyDict) : PyDict × Option String :=
  match pyGet data "proxy_server_request" with
  | Option.none => (data, Option.none)
  | some .none => (data, Option.none)
  | some (.dict req) =>
    (match pyGetD req "headers" (.dict []) with
     | .dict headers =>
       let uaV := pyGetD headers "user-agent" (.str "")
       (match pyGetD data "metadata" (.dict []) with
        | .dict metadata =>
          let routedV := pyGetD metadata "ccproxy_litellm_model" (.str "")
          (match orEmptyIfNone (pyGetD metadata "ccproxy_model_config" (.dict [])) with
           | .dict model_config =>
             (match pyGetD model_config "litellm_params" (.dict []) with
              | .dict litellm_params =>
                let apiBaseV := pyGetD litellm_params "api_base" (.str "")
                let cpV := pyGetD litellm_params "custom_llm_provider" (.str "")
                (match isAnthropicDecision apiBaseV cpV routedV with
                 | .error e => (data, some e)
                 | .ok isAnthropic =>
                   if !uaV.toBool then (data, Option.none)
                   else
                     (match uaV with
                      | .str ua =>
                        if strContains ua "claude-cli" && isAnthropic then
                          forwardAuth data
                        else (data, Option.none)
                      | _ => (data, some "TypeError")))
              | _ => (data, some "AttributeError"))
           | _ => (data, some "AttributeError"))
        | _ => (data, some "AttributeError"))
     | _ => (data, some "AttributeError"))
  | some _ => (data, some "AttributeError")

/-- Read `data["metadata"][k]` when the metadata entry is a dict. -/
def metaGet (d : PyDict) (k : String) : Option Value :=
  match pyGet d "metadata" with
  | some (.dict md) => pyGet md k
  | _ => Option.none

/-- Read `data["provider_specific_header"]["extra_headers"]["authorization"]`. -/
def extraAuthOf (d : PyDict) : Option Value :=
  match pyGet d "provider_specific_header" with
  | some (.dict psh) =>
      (match pyGet psh "extra_headers" with
       | some (.dict eh) => pyGet eh "authorization"
       | _ => Option.none)
  | _ => Option.none

/-! ## ModelRouter (`router.py`)

Only the state the routed claims exercise is embedded: the label-to-entry
map and the loaded flag.  The derived `_model_list`, `_model_group_alias`
and `_available_models` structures are rebuilt from the same snapshot and
are not read by any claim.  The external registry snapshot
(`litellm.proxy.proxy_server.llm_router.model_list`) is passed in
explicitly as `registry`; locking is invisible to the sequential
per-request semantics the claims describe. -/

/-- Router state: `_model_map` plus the `_models_loaded` flag. -/
structure ModelRouter where
  modelMap : SDict PyDict
  modelsLoaded : Bool

/-- `_load_model_mapping` (`router.py` lines 72-118) restricted to the label
map: entries with a falsy `model_name` are skipped, later duplicates of a
label overwrite earlier ones. -/
def buildModelMap (registry : List PyDict) : SDict PyDict :=
  registry.foldl
    (fun (m : SDict PyDict) (entry : PyDict) =>
      match pyGet entry "model_name" with
      | some (Value.str name) => if name ≠ "" then pySet m name entry else m
      | _ => m)
    []

/-- `_ensure_models_loaded` (`router.py` lines 51-70): on first use build the
map from one registry snapshot and mark loaded even when it came up empty. -/
def ModelRouter.ensureLoaded (r : ModelRouter) (registry : List PyDict) : ModelRouter :=
  if r.modelsLoaded then r
  else { modelMap := buildModelMap registry, modelsLoaded := true }

/-- `get_model_for_label` (`router.py` lines 120-151): lazily load, then
exact label match with a single fallback to the `"default"` entry.  Returns
the post-load router state alongside the lookup result. -/
def ModelRouter.get_model_for_label (r : ModelRouter) (registry : List PyDict)
    (label : String) : ModelRouter × Option PyDict :=
  let r' := r.ensureLoaded registry
  (r', match pyGet r'.modelMap label with
       | some m => some m
       | Option.none => pyGet r'.modelMap "default")

/-- `reload_models` (`router.py` lines 225-233): drop the loaded flag and
rebuild from a fresh snapshot. -/
def ModelRouter.reload_models (r : ModelRouter) (registry : List PyDict) : ModelRouter :=
  ModelRouter.ensureLoaded { r with modelsLoaded := false } registry

/-- Lookup with the key the hook actually passes (a `Value`).  A hashable
non-string key misses the string-keyed map and falls to `"default"`. -/
def ModelRouter.get_model_for_key (r : ModelRouter) (registry : List PyDict)
    (k : Value) : ModelRouter × Option PyDict :=
  match k with
  | .str s => r.get_model_for_label registry s
  | _ =>
      let r' := r.ensureLoaded registry
      (r', pyGet r'.modelMap "default")

/-! ## ModelRouterHook (`hooks.py` lines 76-169) -/

/-- The process-wide configuration the routing stage reads. -/
structure Config where
  default_model_passthrough : Bool

/-- One interaction of the routing stage with the router, recorded so the
claims about "no lookup" / "exactly one reload and one retry" are statable. -/
inductive RouterCall where
  | lookup (key : Value)
  | reload

/-- Outcome of one routing-stage run: the (possibly mutated) request data,
the router state after the run, the router interactions in order, and the
exception raised out of the stage, if any. -/
structure HookResult where
  data : PyDict
  router : ModelRouter
  calls : List RouterCall
  error : Option String

/-- `hooks.py` lines 134-142 and 154-160: apply a found model config — set
the outbound model when the config names one, and record
`ccproxy_litellm_model` / `ccproxy_model_config` / `ccproxy_is_passthrough`
in the metadata (threaded here as `md` and committed on return). -/
def routeWith (data : PyDict) (md : PyDict) (mc : PyDict) (r : ModelRouter)
    (calls : List RouterCall) : HookResult :=
  match pyGetD mc "litellm_params" (.dict []) with
  | .dict lp =>
      let routed := pyGetD lp "model" .none
      let data := if routed.toBool then pySet data "model" routed else data
      let md := pySet md "ccproxy_litellm_model" routed
      let md := pySet md "ccproxy_model_config" (.dict mc)
      let md := pySet md "ccproxy_is_passthrough" (.bool false)
      ⟨pySet data "metadata" (.dict md), r, calls, Option.none⟩
  | _ => ⟨pySet data "metadata" (.dict md), r, calls, some "AttributeError"⟩

/-- `hooks.py` lines 127-169: the tail of the routing stage.  `mc?` is
`Option.none` when Python's `model_config` variable is unbound (the
passthrough branch), `some Option.none` when the lookup returned `None`,
and `some (some mc)` when it found a config. -/
def routeFinish (registry : List PyDict) (cfg : Config) (r : ModelRouter)
    (data : PyDict) (md : PyDict) (modelName : Value) (calls : List RouterCall)
    (mc? : Option (Option PyDict)) : HookResult :=
  let handled := modelName.eqStr "default" && cfg.default_model_passthrough
      && (pyGetD md "ccproxy_litellm_model" .none).toBool
  if handled then ⟨pySet data "metadata" (.dict md), r, calls, Option.none⟩
  else
    match mc? with
    | some (some mc) => routeWith data md mc r calls
    | some Option.none =>
        let r := r.reload_models registry
        let look := r.get_model_for_key registry modelName
        let r := look.1
        let calls := calls ++ [RouterCall.reload, RouterCall.lookup modelName]
        (match look.2 with
         | some mc => routeWith data md mc r calls
         | Option.none =>
             ⟨pySet data "metadata" (.dict md), r, calls,
              some ("No model configured for model_name '" ++ pyStr modelName
                    ++ "' and no 'default' model available as fallback")⟩)
    | Option.none =>
        ⟨pySet data "metadata" (.dict md), r, calls, some "UnboundLocalError"⟩

/-- `ModelRouterHook.__call__` (`hooks.py` lines 79-169).  The handler always
carries a real `ModelRouter`, so the `hasattr`/`isinstance` guard of lines
93-95 is vacuous and not modelled.  Metadata mutations are threaded through
`md` and committed into `data` at every return point, which is observably
the in-place mutation the Python performs. -/
def modelRouterHook (cfg : Config) (registry : List PyDict) (r : ModelRouter)
    (data : PyDict) : HookResult :=
  let data := if pyContains data "metadata" then data
              else pySet data "metadata" (.dict [])
  match pyGetD data "metadata" (.dict []) with
  | .dict md =>
      let mn0 := pyGetD md "ccproxy_model_name" (.str "default")
      let modelName := if mn0.toBool then mn0 else .str "default"
      if modelName.eqStr "default" && cfg.default_model_passthrough then
        let original := pyGetD md "ccproxy_alias_model" .none
        if original.toBool then
          let md := pySet md "ccproxy_litellm_model" original
          let md := pySet md "ccproxy_model_config" .none
          let md := pySet md "ccproxy_is_passthrough" (.bool true)
          routeFinish registry cfg r data md modelName [] Option.none
        else
          let look := r.get_model_for_key registry modelName
          routeFinish registry cfg look.1 data md modelName
            [RouterCall.lookup modelName] (some look.2)
      else
        let look := r.get_model_for_key registry modelName
        routeFinish registry cfg look.1 data md modelName
          [RouterCall.lookup modelName] (some look.2)
  | _ => ⟨data, r, [], some "AttributeError"⟩

/-! ## Pipeline (`handler.py` lines 51-84)

`async_pre_call_hook` runs the configured hooks in order inside a
`try/except` that catches every exception, logs it, and continues with the
next hook on whatever partial mutation occurred.  A stage is a function
from request data to mutated request data plus the optional exception it
raised. -/

/-- One pipeline stage. -/
abbrev Stage : Type := PyDict → PyDict × Option String

/-- The `for hook in self.hooks` loop: run every stage, collect the logged
errors in order, never propagate. -/
def runHooks : List Stage → PyDict → PyDict × List String
  | [], d => (d, [])
  | h :: rest, d =>
      let step := h d
      let tail := runHooks rest step.1
      (match step.2 with
       | Option.none => (tail.1, tail.2)
       | some e => (tail.1, e :: tail.2))

/-- The routing stage as wired into one pipeline run (router state and
registry fixed for the run). -/
def routerStage (cfg : Config) (registry : List PyDict) (r : ModelRouter) : Stage :=
  fun d =>
    let out := modelRouterHook cfg registry r d
    (out.data, out.error)

/-- The credential-forwarding stage as wired into the pipeline. -/
def forwardOAuthStage : Stage := forwardOAuthHook

/-! ## TokenCountRule (`rules.py` lines 89-205)

The tokenizer obtained from `tiktoken` is external; it is passed in as
`tokenizerFor : Value → Option (String → Option Nat)`: `Option.none` means
`_get_tokenizer` failed (its internal `try/except` returns `None`), and an
encoder returning `Option.none` models `tokenizer.encode` raising — both
fall back to the `len(text) // 3` estimate. -/

/-- Inner loop of `evaluate` over a multi-part `content` list: concatenate
the `text` of parts whose `type` is exactly `"text"`, each followed by a
space; a non-string `text` field raises. -/
def gatherItems (acc : String) : List Value → Except String String
  | [] => Except.ok acc
  | it :: rest =>
      match it with
      | .dict itd =>
          if (pyGetD itd "type" .none).eqStr "text" then
            match pyGetD itd "text" (.str "") with
            | .str t => gatherItems (acc ++ t ++ " ") rest
            | _ => Except.error "TypeError"
          else gatherItems acc rest
      | _ => gatherItems acc rest

/-- `rules.py` lines 177-191: concatenate message text — string contents
directly, list contents via `gatherItems`, other content shapes skipped,
and non-dict messages through `str(...)`. -/
def gatherText (acc : String) : List Value → Except String String
  | [] => Except.ok acc
  | msg :: rest =>
      match msg with
      | .dict m =>
          (match pyGetD m "content" (.str "") with
           | .str c => gatherText (acc ++ c ++ " ") rest
           | .list items =>
               (match gatherItems acc items with
                | Except.ok acc2 => gatherText acc2 rest
                | Except.error e => Except.error e)
           | _ => gatherText acc rest)
      | _ => gatherText (acc ++ pyStr msg ++ " ") rest

/-- `_count_tokens` (`rules.py` lines 136-156): tokenizer when available and
working, else the `len(text) // 3` heuristic; a failing encode falls back
silently. -/
def countTokens (tokenizerFor : Value → Option (String → Option Nat))
    (text : String) (model : Value) : Nat :=
  match tokenizerFor model with
  | some enc =>
      (match enc text with
       | some n => n
       | Option.none => text.length / 3)
  | Option.none => text.length / 3

/-- `request.get(k, 0) or 0` as used at `rules.py` lines 197-202, as the
integer that `max` will consume: falsy values collapse to 0, `True` counts
as 1, and a truthy non-number makes the enclosing `max` raise. -/
def explicitField (req : PyDict) (k : String) : Except String Int :=
  let v := pyGetD req k (.int 0)
  if v.toBool then
    match v with
    | .int n => Except.ok n
    | .bool _ => Except.ok 1
    | _ => Except.error "TypeError"
  else Except.ok 0

/-- `TokenCountRule.evaluate` (`rules.py` lines 158-205): token count of the
concatenated message text (when any), maxed with the explicit
`token_count` / `num_tokens` / `input_tokens` fields, strictly compared
against the threshold. -/
def TokenCountRule.evaluate (threshold : Int)
    (tokenizerFor : Value → Option (String → Option Nat)) (req : PyDict) :
    Except String Bool :=
  let model := pyGetD req "model" (.str "")
  let msgCount : Except String Nat :=
    match pyGetD req "messages" (.list []) with
    | .list msgs =>
        (match gatherText "" msgs with
         | Except.ok total =>
             Except.ok (if total ≠ "" then countTokens tokenizerFor (pyStrip total) model else 0)
         | Except.error e => Except.error e)
    | _ => Except.ok 0
  match msgCount with
  | Except.error e => Except.error e
  | Except.ok tc =>
      match explicitField req "token_count", explicitField req "num_tokens",
            explicitField req "input_tokens" with
      | Except.ok f1, Except.ok f2, Except.ok f3 =>
          Except.ok (decide (max (max (max (tc : Int) f1) f2) f3 > threshold))
      | Except.error e, _, _ => Except.error e
      | _, Except.error e, _ => Except.error e
      | _, _, Except.error e => Except.error e

/-! ## calculate_duration_ms (`utils.py` lines 60-82)

Timestamps arrive either as epoch floats or as `timedelta` values; floats
are idealized as rationals and `round(x, 2)` as exact decimal
round-half-even at two places. -/

/-- A value passed as `start_time` / `end_time`. -/
inductive Timestamp where
  | float (q : ℚ)
  | timedelta (secs : ℚ)
  | int (n : ℤ)
  | other

/-- Python `end - start` on timestamp values; `Option.none` marks the
`TypeError` of an unsupported operand pairing. -/
def tsSub : Timestamp → Timestamp → Option Timestamp
  | .float a, .float b => some (.float (a - b))
  | .float a, .int b => some (.float (a - (b : ℚ)))
  | .int a, .float b => some (.float ((a : ℚ) - b))
  | .int a, .int b => some (.int (a - b))
  | .timedelta a, .timedelta b => some (.timedelta (a - b))
  | _, _ => Option.none

/-- `.total_seconds()`: only a timedelta has it; `Option.none` marks the
`AttributeError` on anything else. -/
def tsTotalSeconds : Timestamp → Option ℚ
  | .timedelta s => some s
  | _ => Option.none

/-- The `isinstance(end_time, float) and isinstance(start_time, float)` test. -/
def bothFloat : Timestamp → Timestamp → Bool
  | .float _, .float _ => true
  | _, _ => false

/-- Round-half-even to an integer. -/
def roundHalfEven (q : ℚ) : ℤ :=
  let f := ⌊q⌋
  if q - f < 1/2 then f
  else if q - f > 1/2 then f + 1
  else if f % 2 = 0 then f else f + 1

/-- Python `round(x, 2)` idealized over the rationals. -/
def pyRound2 (q : ℚ) : ℚ := (roundHalfEven (q * 100) : ℚ) / 100

/-- `calculate_duration_ms` (`utils.py` lines 60-82): float pair ⇒
`(end - start) * 1000`; otherwise try `(end - start).total_seconds() * 1000`
and collapse a `TypeError`/`AttributeError` to `0.0`; the result is rounded
to two decimal places. -/
def calculate_duration_ms (start_time end_time : Timestamp) : ℚ :=
  let ms : ℚ :=
    match end_time, start_time with
    | .float e, .float s => (e - s) * 1000
    | e, s =>
        (match tsSub e s with
         | some d =>
             (match tsTotalSeconds d with
              | some secs => secs * 1000
              | Option.none => 0)
         | Option.none => 0)
  pyRound2 ms

/-! ## Concrete fixtures used by witnesses and counterexamples -/

/-- A registry entry labelled `"default"`. -/
def entryA : PyDict :=
  [("model_name", Value.str "default"),
   ("litellm_params", Value.dict [("model", Value.str "claude-sonnet-4-20250514")])]

/-- A registry entry labelled `"x"` (no `"default"` entry anywhere). -/
def entryB : PyDict :=
  [("model_name", Value.str "x"),
   ("litellm_params", Value.dict [("model", Value.str "m-b")])]

/-- A router that has not yet loaded. -/
def routerEmpty : ModelRouter := ⟨[], false⟩

/-- Configuration with passthrough disabled. -/
def cfgNoPass : Config := ⟨false⟩

/-- Request data classified to label `"x"`. -/
def dataX : PyDict :=
  [("model", Value.str "gpt-4"),
   ("metadata", Value.dict [("ccproxy_model_name", Value.str "x")])]

/-- Request data for the passthrough fixture. -/
def dataC5 : PyDict :=
  [("model", Value.str "claude-sonnet-4"),
   ("metadata", Value.dict
     [("ccproxy_model_name", Value.str "default"),
      ("ccproxy_alias_model", Value.str "claude-sonnet-4")])]

/-! ## C2/C7: the credential-forwarding decision -/

/-- Read `data["provider_specific_header"]["extra_headers"]` as a dict. -/
def extraHeadersOf (d : PyDict) : Option PyDict :=
  match pyGet d "provider_specific_header" with
  | some (.dict psh) =>
      (match pyGet psh "extra_headers" with
       | some (.dict eh) => some eh
       | _ => Option.none)
  | _ => Option.none

/-- Forwarding fixture: CLI user-agent, Anthropic `api_base`, credential
present, no pre-existing outbound header structure. -/
def dataC2 : PyDict :=
  [("model", Value.str "claude-sonnet-4"),
   ("proxy_server_request", Value.dict
      [("headers", Value.dict [("user-agent", Value.str "claude-cli/1.2 (sdk)")])]),
   ("metadata", Value.dict
      [("ccproxy_litellm_model", Value.str "claude-sonnet-4"),
       ("ccproxy_model_config", Value.dict
          [("litellm_params", Value.dict
             [("api_base", Value.str "https://api.anthropic.com")])])]),
   ("secret_fields", Value.dict
      [("raw_headers", Value.dict [("authorization", Value.str "Bearer tok")])])]

/-- Forwarding fixture with a pre-existing outbound header structure whose
`authorization` slot is already occupied. -/
def dataC7 : PyDict :=
  [("model", Value.str "claude-sonnet-4"),
   ("proxy_server_request", Value.dict
      [("headers", Value.dict [("user-agent", Value.str "claude-cli/1.0")])]),
   ("metadata", Value.dict
      [("ccproxy_litellm_model", Value.str "claude-sonnet-4"),
       ("ccproxy_model_config", Value.none)]),
   ("secret_fields", Value.dict
      [("raw_headers", Value.dict [("authorization", Value.str "Bearer new")])]),
   ("provider_specific_header", Value.dict
      [("extra_headers", Value.dict
         [("authorization", Value.str "Bearer old"),
          ("x-api-key", Value.str "k")])])]

/-- Request fixture for the token-threshold witness: nine characters of
message text and no tokenizer give `9 // 3 = 3` tokens. -/
def reqC8 : PyDict :=
  [("messages", Value.list [Value.dict [("content", Value.str "abcdefghi")]])]

theorem pyGet_pySet_self {α : Type} (d : SDict α) (k : String) (v : α) :
    pyGet (pySet d k v) k = some v := by
  induction d with
  | nil => simp [pySet, pyGet]
  | cons hd tl ih =>
      obtain ⟨k', v'⟩ := hd
      by_cases h : k' = k <;> simp [pySet, pyGet, h, ih]

theorem pyGet_pySet_ne {α : Type} (d : SDict α) (k k' : String) (v : α)
    (h : k ≠ k') : pyGet (pySet d k v) k' = pyGet d k' := by
  induction d with
  | nil => simp [pySet, pyGet, h]
  | cons hd tl ih =>
      obtain ⟨k0, v0⟩ := hd
      by_cases h0 : k0 = k
      · subst h0; simp [pySet, pyGet, h]
      · simp only [pySet, if_neg h0, pyGet]
        by_cases h1 : k0 = k' <;> simp [h1, ih]

/-- Writing back the value already stored at a key leaves the dict as is. -/
theorem pySet_get_eq {α : Type} (d : SDict α) (k : String) (v : α)
    (h : pyGet d k = some v) : pySet d k v = d := by
  induction d with
  | nil => simp [pyGet] at h
  | cons hd tl ih =>
      obtain ⟨k', v'⟩ := hd
      by_cases h0 : k' = k
      · subst h0
        simp only [pyGet, if_pos rfl] at h
        injection h with h
        simp [pySet, h]
      · simp only [pyGet, if_neg h0] at h
        simp [pySet, h0, ih h]

/-! ## C4: router lookup and fallback -/

/-- C4: for every label and router state, `get_model_for_label` returns the
entry exactly mapped to the label in the (lazily loaded) cache when one
exists, and otherwise exactly the `"default"` entry or absence — never any
other entry. -/
theorem C4_router_lookup_fallback (registry : List PyDict) (r : ModelRouter)
    (label : String) :
    (∀ e, pyGet (r.ensureLoaded registry).modelMap label = some e →
        (r.get_model_for_label registry label).2 = some e)
    ∧ (pyGet (r.ensureLoaded registry).modelMap label = Option.none →
        (r.get_model_for_label registry label).2 =
          pyGet (r.ensureLoaded registry).modelMap "default") := by
  constructor
  · intro e he
    simp [ModelRouter.get_model_for_label, he]
  · intro he
    simp [ModelRouter.get_model_for_label, he]

/-- C4 witness: with only a `"default"` entry any label resolves to it; with
only an `"x"` entry and no `"default"`, any other label resolves to absent. -/
theorem C4_router_lookup_fallback_witness :
    (routerEmpty.get_model_for_label [entryA] "anything").2 = some entryA
    ∧ (routerEmpty.get_model_for_label [entryB] "anything").2 = Option.none := by
  constructor
  · have h := (C4_router_lookup_fallback [entryA] routerEmpty "anything").2 (by rfl)
    rw [h]; rfl
  · have h := (C4_router_lookup_fallback [entryB] routerEmpty "anything").2 (by rfl)
    rw [h]; rfl

/-! ## C10: missing proxy_server_request short-circuits the oauth stage -/

/-- C10: when the request data has no `proxy_server_request` entry (or it is
`None`), the credential-forwarding stage returns the data unchanged and
raises nothing, whatever the other fields hold. -/
theorem C10_no_proxy_request_unchanged (data : PyDict)
    (h : pyGet data "proxy_server_request" = Option.none
         ∨ pyGet data "proxy_server_request" = some Value.none) :
    forwardOAuthHook data = (data, Option.none) := by
  rcases h with h | h <;> simp [forwardOAuthHook, h]

/-- C10 witness at a concrete request with no `proxy_server_request`. -/
theorem C10_witness :
    forwardOAuthHook
        [("model", Value.str "claude-sonnet-4"),
         ("secret_fields", Value.dict
            [("raw_headers", Value.dict [("authorization", Value.str "Bearer t")])])]
      = ([("model", Value.str "claude-sonnet-4"),
          ("secret_fields", Value.dict
            [("raw_headers", Value.dict [("authorization", Value.str "Bearer t")])])],
         Option.none) :=
  C10_no_proxy_request_unchanged _ (Or.inl rfl)

/-! ## C9: duration computation -/

/-- `round(x, 2)` of zero is zero. -/
theorem pyRound2_zero : pyRound2 0 = 0 := by
  simp only [pyRound2, roundHalfEven]
  norm_num

/-- C9 counterexample: for the float pair `start = 0.0`,
`end = 0.0009765625` (both exactly representable), the code returns
`round(0.9765625, 2) = 0.98`, not the claimed raw `(end - start) * 1000 =
0.9765625`. -/
theorem C9_counterexample :
    calculate_duration_ms (Timestamp.float 0) (Timestamp.float (1/1024)) = 49/50
    ∧ (49/50 : ℚ) ≠ ((1/1024 : ℚ) - 0) * 1000 := by
  constructor
  · show pyRound2 ((1/1024 - 0) * 1000) = 49/50
    have h1 : ((1/1024 : ℚ) - 0) * 1000 * 100 = 3125/32 := by norm_num
    have hf : ⌊(3125/32 : ℚ)⌋ = 97 := by
      rw [Int.floor_eq_iff]
      constructor <;> norm_num
    simp only [pyRound2, roundHalfEven]
    rw [h1, hf]
    norm_num
  · norm_num

/-- C9 amended: the duration of a float pair is `(end - start) * 1000`
rounded to two decimal places, of a timedelta pair the difference's total
seconds times 1000 rounded the same way, and exactly `0` whenever the pair
is not two floats and subtraction or `total_seconds` fails. -/
theorem C9_duration_amended :
    (∀ s e : ℚ, calculate_duration_ms (Timestamp.float s) (Timestamp.float e)
        = pyRound2 ((e - s) * 1000))
    ∧ (∀ s e : ℚ, calculate_duration_ms (Timestamp.timedelta s) (Timestamp.timedelta e)
        = pyRound2 ((e - s) * 1000))
    ∧ (∀ s e : Timestamp, bothFloat e s = false →
        (tsSub e s).bind tsTotalSeconds = Option.none →
        calculate_duration_ms s e = 0) := by
  refine ⟨fun s e => ?_, fun s e => ?_, fun s e h1 h2 => ?_⟩
  · unfold calculate_duration_ms
    rfl
  · unfold calculate_duration_ms
    rfl
  · unfold calculate_duration_ms
    cases s <;> cases e <;>
      simp_all [tsSub, tsTotalSeconds, bothFloat, Option.bind, pyRound2_zero]

/-- C9 amended witness: a float/other pairing degrades to zero. -/
theorem C9_witness :
    calculate_duration_ms Timestamp.other (Timestamp.float 5) = 0 :=
  C9_duration_amended.2.2 Timestamp.other (Timestamp.float 5) rfl rfl

/-! ## C3: is-target-primary-provider ordering -/

/-- C3: the primary-provider test short-circuits in the fixed order —
a present `api_base` decides by exact hostname membership in
`{api.anthropic.com, anthropic.com}` with parse failure as false; else
`custom_provider = "anthropic"`; else, with neither set, an `anthropic/`
or `claude` prefix of the resolved model; else false. -/
theorem C3_primary_provider_order (a c m : String) :
    is_anthropic_provider a c m = true ↔
      ((a ≠ "" ∧ ∃ h, urlHostname a = some h
            ∧ (h = "api.anthropic.com" ∨ h = "anthropic.com"))
       ∨ (a = "" ∧ c = "anthropic")
       ∨ (a = "" ∧ c = ""
            ∧ (strStartsWith m "anthropic/" = true ∨ strStartsWith m "claude" = true))) := by
  unfold is_anthropic_provider isAnthropicDecision
  by_cases ha : a = ""
  · subst ha
    by_cases hc : c = "anthropic"
    · subst hc
      simp [Value.toBool, Value.eqStr]
    · by_cases hc0 : c = ""
      · subst hc0
        simp [Value.toBool, Value.eqStr, hc]
      · simp [Value.toBool, Value.eqStr, hc, hc0]
  · cases hu : urlHostname a with
    | some h => simp [Value.toBool, Value.eqStr, ha, hu]
    | none => simp [Value.toBool, Value.eqStr, ha, hu]

/-! ## C5: passthrough routing -/

/-- C5: with label `"default"`, passthrough enabled and a non-empty alias
model in metadata, the routing stage raises nothing, never queries the
router, leaves the outbound model unchanged, and records an absent backend
config and `is_passthrough = true`. -/
theorem C5_passthrough (cfg : Config) (registry : List PyDict) (r : ModelRouter)
    (data : PyDict) (md : PyDict) (aliasm : String)
    (hmd : pyGet data "metadata" = some (Value.dict md))
    (hmn : pyGet md "ccproxy_model_name" = some (Value.str "default"))
    (hpt : cfg.default_model_passthrough = true)
    (hal : pyGet md "ccproxy_alias_model" = some (Value.str aliasm))
    (hne : aliasm ≠ "") :
    (modelRouterHook cfg registry r data).error = Option.none
    ∧ (modelRouterHook cfg registry r data).calls = []
    ∧ (modelRouterHook cfg registry r data).router = r
    ∧ pyGet (modelRouterHook cfg registry r data).data "model" = pyGet data "model"
    ∧ metaGet (modelRouterHook cfg registry r data).data "ccproxy_model_config"
        = some Value.none
    ∧ metaGet (modelRouterHook cfg registry r data).data "ccproxy_is_passthrough"
        = some (Value.bool true) := by
  have hout : modelRouterHook cfg registry r data
      = ⟨pySet data "metadata" (Value.dict
           (pySet (pySet (pySet md "ccproxy_litellm_model" (Value.str aliasm))
              "ccproxy_model_config" Value.none)
              "ccproxy_is_passthrough" (Value.bool true))), r, [], Option.none⟩ := by
    simp [modelRouterHook, routeFinish, pyContains, pyGetD, hmd, hmn, hal, hpt, hne,
      Value.toBool, Value.eqStr, pyGet_pySet_self, pyGet_pySet_ne]
  refine ⟨?_, ?_, ?_, ?_, ?_, ?_⟩ <;> rw [hout] <;>
    simp [metaGet, pyGet_pySet_self, pyGet_pySet_ne]

/-- C5 witness: the spec's literal passthrough scenario. -/
theorem C5_witness :
    (modelRouterHook ⟨true⟩ [] routerEmpty dataC5).error = Option.none
    ∧ (modelRouterHook ⟨true⟩ [] routerEmpty dataC5).calls = []
    ∧ pyGet (modelRouterHook ⟨true⟩ [] routerEmpty dataC5).data "model"
        = some (Value.str "claude-sonnet-4")
    ∧ metaGet (modelRouterHook ⟨true⟩ [] routerEmpty dataC5).data "ccproxy_model_config"
        = some Value.none
    ∧ metaGet (modelRouterHook ⟨true⟩ [] routerEmpty dataC5).data "ccproxy_is_passthrough"
        = some (Value.bool true) := by
  have h := C5_passthrough ⟨true⟩ [] routerEmpty dataC5
      [("ccproxy_model_name", Value.str "default"),
       ("ccproxy_alias_model", Value.str "claude-sonnet-4")]
      "claude-sonnet-4" rfl rfl rfl rfl (by simp)
  refine ⟨h.1, h.2.1, ?_, h.2.2.2.2.1, h.2.2.2.2.2⟩
  rw [h.2.2.2.1]
  rfl

/-! ## C6: absent lookup, one reload, one retry -/

/-- The router state returned by a lookup is the lazily loaded one. -/
theorem get_model_for_label_fst (r : ModelRouter) (registry : List PyDict) (L : String) :
    (r.get_model_for_label registry L).1 = r.ensureLoaded registry := rfl

/-- C6: when the routing stage's lookup returns absent, it reloads once and
retries once (calls `lookup, reload, lookup`); a successful retry proceeds
as standard routing with the retrieved entry, and a failed retry raises the
fatal error naming the unresolved label and the missing default. -/
theorem C6_reload_retry (cfg : Config) (registry : List PyDict) (r : ModelRouter)
    (data md : PyDict) (L : String)
    (hmd : pyGet data "metadata" = some (Value.dict md))
    (hmn : pyGet md "ccproxy_model_name" = some (Value.str L))
    (hL : L ≠ "")
    (hnp : ¬(L = "default" ∧ cfg.default_model_passthrough = true))
    (hfirst : (r.get_model_for_label registry L).2 = Option.none) :
    (modelRouterHook cfg registry r data).calls
      = [RouterCall.lookup (Value.str L), RouterCall.reload, RouterCall.lookup (Value.str L)]
    ∧ ((((r.ensureLoaded registry).reload_models registry).get_model_for_label
          registry L).2 = Option.none →
        (modelRouterHook cfg registry r data).error
          = some ("No model configured for model_name '" ++ L
              ++ "' and no 'default' model available as fallback"))
    ∧ (∀ mc lp rm,
        (((r.ensureLoaded registry).reload_models registry).get_model_for_label
            registry L).2 = some mc →
        pyGetD mc "litellm_params" (Value.dict []) = Value.dict lp →
        pyGet lp "model" = some (Value.str rm) → rm ≠ "" →
        (modelRouterHook cfg registry r data).error = Option.none
        ∧ pyGet (modelRouterHook cfg registry r data).data "model" = some (Value.str rm)
        ∧ metaGet (modelRouterHook cfg registry r data).data "ccproxy_litellm_model"
            = some (Value.str rm)
        ∧ metaGet (modelRouterHook cfg registry r data).data "ccproxy_model_config"
            = some (Value.dict mc)
        ∧ metaGet (modelRouterHook cfg registry r data).data "ccproxy_is_passthrough"
            = some (Value.bool false)) := by
  have hptf : ∀ (hld : L = "default"), cfg.default_model_passthrough = false := by
    intro hld
    cases hb : cfg.default_model_passthrough
    · rfl
    · exact absurd ⟨hld, hb⟩ hnp
  have hout : modelRouterHook cfg registry r data
      = routeFinish registry cfg (r.ensureLoaded registry) data md (Value.str L)
          [RouterCall.lookup (Value.str L)] (some Option.none) := by
    by_cases hld : L = "default"
    · have hpt0 := hptf hld
      subst hld
      simp [modelRouterHook, pyContains, pyGetD, hmd, hmn, Value.toBool, hL,
        hpt0, ModelRouter.get_model_for_key, hfirst, get_model_for_label_fst]
    · simp [modelRouterHook, pyContains, pyGetD, hmd, hmn, Value.toBool, hL,
        Value.eqStr, hld, ModelRouter.get_model_for_key, hfirst, get_model_for_label_fst]
  have hhf : (Value.eqStr (Value.str L) "default"
      && (cfg.default_model_passthrough
          && (pyGetD md "ccproxy_litellm_model" Value.none).toBool)) = false
      ∧ ((Value.eqStr (Value.str L) "default" && cfg.default_model_passthrough)
          && (pyGetD md "ccproxy_litellm_model" Value.none).toBool) = false := by
    by_cases hld : L = "default"
    · simp [Value.eqStr, hld, hptf hld]
    · simp [Value.eqStr, hld]
  rcases hre : (((r.ensureLoaded registry).reload_models registry).get_model_for_label
      registry L).2 with _ | mc
  · refine ⟨?_, fun _ => ?_, ?_⟩
    · rw [hout]
      simp [routeFinish, ModelRouter.get_model_for_key, hre, hhf.1, hhf.2]
    · rw [hout]
      simp [routeFinish, ModelRouter.get_model_for_key, hre, hhf.1, hhf.2, pyStr]
    · intro mc lp rm hmc
      exact Option.noConfusion hmc
  · refine ⟨?_, fun hcontra => ?_, ?_⟩
    · rw [hout]
      cases hlp : pyGetD mc "litellm_params" (Value.dict []) <;>
        simp [routeFinish, ModelRouter.get_model_for_key, hre, hhf.1, hhf.2,
          routeWith, hlp]
    · exact Option.noConfusion hcontra
    · intro mc2 lp rm hmc hlp hrm hrne
      injection hmc with hmc
      subst hmc
      simp only [pyGetD] at hlp
      rw [hout]
      by_cases hld : L = "default"
      · have hpt0 := hptf hld
        subst hld
        simp [routeFinish, ModelRouter.get_model_for_key, hre, routeWith, hlp, hrm,
          Value.toBool, Value.eqStr, hrne, hpt0, metaGet, pyGet_pySet_self,
          pyGet_pySet_ne, pyGetD]
      · simp [routeFinish, ModelRouter.get_model_for_key, hre, routeWith, hlp, hrm,
          Value.toBool, Value.eqStr, hld, hrne, metaGet, pyGet_pySet_self,
          pyGet_pySet_ne, pyGetD]

/-- C6 witness: empty registry, label `"x"` — one reload, one retry, then
the fatal error naming the label and the missing default. -/
theorem C6_witness :
    (modelRouterHook cfgNoPass [] routerEmpty dataX).calls
      = [RouterCall.lookup (Value.str "x"), RouterCall.reload,
         RouterCall.lookup (Value.str "x")]
    ∧ (modelRouterHook cfgNoPass [] routerEmpty dataX).error
      = some "No model configured for model_name 'x' and no 'default' model available as fallback" := by
  have h := C6_reload_retry cfgNoPass [] routerEmpty dataX
      [("ccproxy_model_name", Value.str "x")] "x" rfl rfl (by simp)
      (fun hc => absurd hc.1 (by simp)) rfl
  exact ⟨h.1, h.2.1 rfl⟩

/-! ## C1: pipeline failure isolation -/

/-- C1 counterexample: with an empty registry the routing stage raises its
fatal no-backend `ValueError`, yet the pipeline catches it like any other
stage failure: `runHooks` completes, returns the request data, and only
logs the error — nothing propagates out of the pipeline. -/
theorem C1_counterexample :
    (modelRouterHook cfgNoPass [] routerEmpty dataX).error.isSome = true
    ∧ runHooks [routerStage cfgNoPass [] routerEmpty] dataX
        = (dataX,
           ["No model configured for model_name 'x' and no 'default' model available as fallback"]) := by
  exact ⟨rfl, rfl⟩

/-- C1 amended: stage-failure isolation is uniform, not asymmetric — every
stage failure, the routing stage's fatal no-backend error included, is
caught and logged and execution continues with the next stage on the
partially mutated context; no stage error aborts the pipeline. -/
theorem C1_pipeline_catches_all (h : Stage) (rest : List Stage) (data d : PyDict)
    (e : String) (hfail : h data = (d, some e)) :
    runHooks (h :: rest) data = ((runHooks rest d).1, e :: (runHooks rest d).2) := by
  simp [runHooks, hfail]

/-- C1 amended witness: a failing first stage is logged and the second
stage still runs on the context the first stage left behind. -/
theorem C1_witness :
    runHooks [fun d => (d, some "ValueError"),
              fun d => (pySet d "routed" (Value.bool true), Option.none)] []
      = ([("routed", Value.bool true)], ["ValueError"]) := by
  have h := C1_pipeline_catches_all (fun d => (d, some "ValueError"))
      [fun d => (pySet d "routed" (Value.bool true), Option.none)] [] [] "ValueError" rfl
  rw [h]
  rfl

/-- On string-valued inputs the provider decision never raises and agrees
with `is_anthropic_provider`. -/
theorem isAnthropicDecision_str (a c m : String) :
    isAnthropicDecision (Value.str a) (Value.str c) (Value.str m)
      = Except.ok (is_anthropic_provider a c m) := by
  cases hd : isAnthropicDecision (Value.str a) (Value.str c) (Value.str m) with
  | ok b =>
      unfold is_anthropic_provider
      rw [hd]
  | error e =>
      exfalso
      unfold isAnthropicDecision at hd
      split_ifs at hd <;> simp_all

/-- Behaviour of the token-writing tail of the oauth hook under a present,
non-empty credential and well-shaped header structures: it completes, sets
the authorization slot, and preserves every other pre-existing
extra-headers entry. -/
theorem forwardAuth_spec (data sf rh : PyDict) (auth : String)
    (h10 : orEmptyIfFalsy (pyGetD data "secret_fields" Value.none) = Value.dict sf)
    (h11 : orEmptyIfFalsy (pyGetD sf "raw_headers" Value.none) = Value.dict rh)
    (h12 : pyGetD rh "authorization" (Value.str "") = Value.str auth)
    (hauth : auth ≠ "")
    (h13 : pyGet data "provider_specific_header" = Option.none
           ∨ ∃ psh, pyGet data "provider_specific_header" = some (Value.dict psh))
    (h14 : ∀ psh, pyGet data "provider_specific_header" = some (Value.dict psh) →
           pyGet psh "extra_headers" = Option.none
           ∨ ∃ eh, pyGet psh "extra_headers" = some (Value.dict eh)) :
    (forwardAuth data).2 = Option.none
    ∧ extraAuthOf (forwardAuth data).1 = some (Value.str auth)
    ∧ (∀ psh eh k v, pyGet data "provider_specific_header" = some (Value.dict psh) →
        pyGet psh "extra_headers" = some (Value.dict eh) →
        k ≠ "authorization" → pyGet eh k = some v →
        ((extraHeadersOf (forwardAuth data).1).bind (fun eh2 => pyGet eh2 k)) = some v) := by
  rcases h13 with hno | ⟨psh0, hpsh⟩
  · refine ⟨?_, ?_, ?_⟩
    · simp [forwardAuth, h10, h11, h12, Value.toBool, hauth, pyContains, hno,
        pyGet, pySet, pyGet_pySet_self]
    · simp [forwardAuth, h10, h11, h12, Value.toBool, hauth, pyContains, hno,
        extraAuthOf, pyGet, pySet, pyGet_pySet_self]
    · intro psh eh k v hp
      rw [hno] at hp
      exact absurd hp (by simp)
  · rcases h14 psh0 hpsh with heh | ⟨eh0, heh⟩
    · refine ⟨?_, ?_, ?_⟩
      · simp [forwardAuth, h10, h11, h12, Value.toBool, hauth, pyContains, hpsh, heh,
          pyGet, pySet, pyGet_pySet_self]
      · simp [forwardAuth, h10, h11, h12, Value.toBool, hauth, pyContains, hpsh, heh,
          extraAuthOf, pyGet, pySet, pyGet_pySet_self]
      · intro psh eh k v hp hpe
        rw [hpsh] at hp
        injection hp with hp
        injection hp with hp
        subst hp
        rw [heh] at hpe
        exact fun _ _ => absurd hpe (by simp)
    · refine ⟨?_, ?_, ?_⟩
      · simp [forwardAuth, h10, h11, h12, Value.toBool, hauth, pyContains, hpsh, heh,
          pyGet, pySet, pyGet_pySet_self]
      · simp [forwardAuth, h10, h11, h12, Value.toBool, hauth, pyContains, hpsh, heh,
          extraAuthOf, pyGet, pySet, pyGet_pySet_self]
      · intro psh eh k v hp hpe hk hv
        rw [hpsh] at hp
        injection hp with hp
        injection hp with hp
        subst hp
        rw [heh] at hpe
        injection hpe with hpe
        injection hpe with hpe
        subst hpe
        simp [forwardAuth, h10, h11, h12, Value.toBool, hauth, pyContains, hpsh, heh,
          extraHeadersOf, pyGet_pySet_self]
        rw [pyGet_pySet_ne eh0 "authorization" k (Value.str auth) (Ne.symm hk)]
        exact hv

/-- C2: for a well-shaped request context, the forwarding stage attaches
the caller's raw authorization value iff the user-agent contains
`claude-cli`, the primary-provider test over the resolved backend is true,
and a non-empty authorization value sits in the secret side-channel; when
any condition fails the data is returned untouched. -/
theorem C2_forward_iff
    (data req headers metadata model_config litellm_params sf rh : PyDict)
    (ua apiBase cp routed auth : String)
    (h1 : pyGet data "proxy_server_request" = some (Value.dict req))
    (h2 : pyGetD req "headers" (Value.dict []) = Value.dict headers)
    (h3 : pyGetD headers "user-agent" (Value.str "") = Value.str ua)
    (h4 : pyGetD data "metadata" (Value.dict []) = Value.dict metadata)
    (h5 : pyGetD metadata "ccproxy_litellm_model" (Value.str "") = Value.str routed)
    (h6 : orEmptyIfNone (pyGetD metadata "ccproxy_model_config" (Value.dict []))
          = Value.dict model_config)
    (h7 : pyGetD model_config "litellm_params" (Value.dict []) = Value.dict litellm_params)
    (h8 : pyGetD litellm_params "api_base" (Value.str "") = Value.str apiBase)
    (h9 : pyGetD litellm_params "custom_llm_provider" (Value.str "") = Value.str cp)
    (h10 : orEmptyIfFalsy (pyGetD data "secret_fields" Value.none) = Value.dict sf)
    (h11 : orEmptyIfFalsy (pyGetD sf "raw_headers" Value.none) = Value.dict rh)
    (h12 : pyGetD rh "authorization" (Value.str "") = Value.str auth)
    (h13 : pyGet data "provider_specific_header" = Option.none
           ∨ ∃ psh, pyGet data "provider_specific_header" = some (Value.dict psh))
    (h14 : ∀ psh, pyGet data "provider_specific_header" = some (Value.dict psh) →
           pyGet psh "extra_headers" = Option.none
           ∨ ∃ eh, pyGet psh "extra_headers" = some (Value.dict eh)) :
    ((strContains ua "claude-cli" && is_anthropic_provider apiBase cp routed
        && decide (auth ≠ "")) = false →
      forwardOAuthHook data = (data, Option.none))
    ∧ ((strContains ua "claude-cli" && is_anthropic_provider apiBase cp routed
        && decide (auth ≠ "")) = true →
      (forwardOAuthHook data).2 = Option.none
      ∧ extraAuthOf (forwardOAuthHook data).1 = some (Value.str auth)) := by
  by_cases hua : ua = ""
  · have hcf : strContains ua "claude-cli" = false := by
      subst hua
      decide
    constructor
    · intro _
      subst hua
      simp [forwardOAuthHook, h1, h2, h3, h4, h5, h6, h7, h8, h9,
        isAnthropicDecision_str, Value.toBool]
    · intro hc
      rw [hcf] at hc
      simp at hc
  · have hhook : forwardOAuthHook data
        = (if strContains ua "claude-cli" && is_anthropic_provider apiBase cp routed
           then forwardAuth data else (data, Option.none)) := by
      simp [forwardOAuthHook, h1, h2, h3, h4, h5, h6, h7, h8, h9,
        isAnthropicDecision_str, Value.toBool, hua]
    constructor
    · intro hc
      rw [hhook]
      by_cases hcc : (strContains ua "claude-cli"
          && is_anthropic_provider apiBase cp routed) = true
      · have hauth0 : auth = "" := by
          rw [hcc] at hc
          simpa using hc
        simp [hcc, forwardAuth, h10, h11, h12, Value.toBool, hauth0]
      · rw [if_neg hcc]
    · intro hc
      have hcc : (strContains ua "claude-cli"
          && is_anthropic_provider apiBase cp routed) = true ∧ auth ≠ "" := by
        rcases Bool.and_eq_true_iff.mp hc with ⟨hx, hy⟩
        exact ⟨hx, of_decide_eq_true hy⟩
      rw [hhook, if_pos hcc.1]
      exact ⟨(forwardAuth_spec data sf rh auth h10 h11 h12 hcc.2 h13 h14).1,
             (forwardAuth_spec data sf rh auth h10 h11 h12 hcc.2 h13 h14).2.1⟩

/-- C2 witness: all three conditions hold on `dataC2` and the credential is
attached. -/
theorem C2_witness :
    (forwardOAuthHook dataC2).2 = Option.none
    ∧ extraAuthOf (forwardOAuthHook dataC2).1 = some (Value.str "Bearer tok") := by
  have h := (C2_forward_iff dataC2
      [("headers", Value.dict [("user-agent", Value.str "claude-cli/1.2 (sdk)")])]
      [("user-agent", Value.str "claude-cli/1.2 (sdk)")]
      [("ccproxy_litellm_model", Value.str "claude-sonnet-4"),
       ("ccproxy_model_config", Value.dict
          [("litellm_params", Value.dict
             [("api_base", Value.str "https://api.anthropic.com")])])]
      [("litellm_params", Value.dict
          [("api_base", Value.str "https://api.anthropic.com")])]
      [("api_base", Value.str "https://api.anthropic.com")]
      [("raw_headers", Value.dict [("authorization", Value.str "Bearer tok")])]
      [("authorization", Value.str "Bearer tok")]
      "claude-cli/1.2 (sdk)" "https://api.anthropic.com" "" "claude-sonnet-4" "Bearer tok"
      rfl rfl rfl rfl rfl rfl rfl rfl rfl rfl rfl rfl
      (Or.inl rfl) (fun psh hp => by simp [pyGet] at hp)).2 (by decide)
  exact h

/-- C7 counterexample: a pre-existing `authorization` entry in
`extra_headers` is NOT preserved with its prior value — forwarding
overwrites it. -/
theorem C7_counterexample :
    extraAuthOf dataC7 = some (Value.str "Bearer old")
    ∧ (forwardOAuthHook dataC7).2 = Option.none
    ∧ extraAuthOf (forwardOAuthHook dataC7).1 = some (Value.str "Bearer new")
    ∧ some (Value.str "Bearer new") ≠ some (Value.str "Bearer old") := by
  refine ⟨rfl, rfl, rfl, ?_⟩
  intro h
  injection h with h
  injection h with h
  exact absurd h (by decide)

/-- C7 amended: the forwarding write is additive for every key other than
`authorization` — each pre-existing `extra_headers` entry under another key
keeps its prior value; the `authorization` slot itself is overwritten with
the forwarded credential. -/
theorem C7_additive_amended
    (data req headers metadata model_config litellm_params sf rh psh0 eh0 : PyDict)
    (ua apiBase cp routed auth : String)
    (h1 : pyGet data "proxy_server_request" = some (Value.dict req))
    (h2 : pyGetD req "headers" (Value.dict []) = Value.dict headers)
    (h3 : pyGetD headers "user-agent" (Value.str "") = Value.str ua)
    (h4 : pyGetD data "metadata" (Value.dict []) = Value.dict metadata)
    (h5 : pyGetD metadata "ccproxy_litellm_model" (Value.str "") = Value.str routed)
    (h6 : orEmptyIfNone (pyGetD metadata "ccproxy_model_config" (Value.dict []))
          = Value.dict model_config)
    (h7 : pyGetD model_config "litellm_params" (Value.dict []) = Value.dict litellm_params)
    (h8 : pyGetD litellm_params "api_base" (Value.str "") = Value.str apiBase)
    (h9 : pyGetD litellm_params "custom_llm_provider" (Value.str "") = Value.str cp)
    (h10 : orEmptyIfFalsy (pyGetD data "secret_fields" Value.none) = Value.dict sf)
    (h11 : orEmptyIfFalsy (pyGetD sf "raw_headers" Value.none) = Value.dict rh)
    (h12 : pyGetD rh "authorization" (Value.str "") = Value.str auth)
    (hpsh : pyGet data "provider_specific_header" = some (Value.dict psh0))
    (heh : pyGet psh0 "extra_headers" = some (Value.dict eh0))
    (hcond : (strContains ua "claude-cli" && is_anthropic_provider apiBase cp routed
        && decide (auth ≠ "")) = true) :
    (forwardOAuthHook data).2 = Option.none
    ∧ extraAuthOf (forwardOAuthHook data).1 = some (Value.str auth)
    ∧ (∀ k v, k ≠ "authorization" → pyGet eh0 k = some v →
        ((extraHeadersOf (forwardOAuthHook data).1).bind (fun eh2 => pyGet eh2 k))
          = some v) := by
  rcases Bool.and_eq_true_iff.mp hcond with ⟨hcc, hauthd⟩
  have hauth : auth ≠ "" := of_decide_eq_true hauthd
  have hua : ua ≠ "" := by
    intro hua0
    rcases Bool.and_eq_true_iff.mp hcc with ⟨hx, _⟩
    subst hua0
    exact absurd hx (by decide)
  have hhook : forwardOAuthHook data = forwardAuth data := by
    have hred : forwardOAuthHook data
        = (if strContains ua "claude-cli" && is_anthropic_provider apiBase cp routed
           then forwardAuth data else (data, Option.none)) := by
      simp [forwardOAuthHook, h1, h2, h3, h4, h5, h6, h7, h8, h9,
        isAnthropicDecision_str, Value.toBool, hua]
    rw [hred, if_pos hcc]
  have hspec := forwardAuth_spec data sf rh auth h10 h11 h12 hauth
      (Or.inr ⟨psh0, hpsh⟩)
      (fun psh hp => by
        rw [hpsh] at hp
        injection hp with hp
        injection hp with hp
        subst hp
        exact Or.inr ⟨eh0, heh⟩)
  rw [hhook]
  exact ⟨hspec.1, hspec.2.1, fun k v hk hv => hspec.2.2 psh0 eh0 k v hpsh heh hk hv⟩

/-- C7 amended witness: on `dataC7` the non-authorization entry
`x-api-key` keeps its prior value after forwarding. -/
theorem C7_witness :
    ((extraHeadersOf (forwardOAuthHook dataC7).1).bind
        (fun eh2 => pyGet eh2 "x-api-key")) = some (Value.str "k") := by
  have h := C7_additive_amended dataC7
      [("headers", Value.dict [("user-agent", Value.str "claude-cli/1.0")])]
      [("user-agent", Value.str "claude-cli/1.0")]
      [("ccproxy_litellm_model", Value.str "claude-sonnet-4"),
       ("ccproxy_model_config", Value.none)]
      [] []
      [("raw_headers", Value.dict [("authorization", Value.str "Bearer new")])]
      [("authorization", Value.str "Bearer new")]
      [("extra_headers", Value.dict
         [("authorization", Value.str "Bearer old"),
          ("x-api-key", Value.str "k")])]
      [("authorization", Value.str "Bearer old"), ("x-api-key", Value.str "k")]
      "claude-cli/1.0" "" "" "claude-sonnet-4" "Bearer new"
      rfl rfl rfl rfl rfl rfl rfl rfl rfl rfl rfl rfl rfl rfl (by decide)
  exact h.2.2 "x-api-key" (Value.str "k") (by decide) rfl

/-! ## C8: TokenCountRule threshold -/

/-- C8: for well-shaped inputs `TokenCountRule.evaluate` never raises and is
true iff the maximum of the computed message-text token count (tokenizer
when available, else `len // 3`; empty text counts 0) and the explicit
`token_count` / `num_tokens` / `input_tokens` fields strictly exceeds the
threshold.  The tokenizer argument is arbitrary, so a failing tokenizer
(modelled as returning `Option.none` and falling back inside
`countTokens`) cannot make `evaluate` raise. -/
theorem C8_token_threshold (t : Int) (tokF : Value → Option (String → Option Nat))
    (req : PyDict) (msgs : List Value) (total : String) (f1 f2 f3 : Int)
    (hm : pyGetD req "messages" (Value.list []) = Value.list msgs)
    (hg : gatherText "" msgs = Except.ok total)
    (h1 : explicitField req "token_count" = Except.ok f1)
    (h2 : explicitField req "num_tokens" = Except.ok f2)
    (h3 : explicitField req "input_tokens" = Except.ok f3) :
    TokenCountRule.evaluate t tokF req
      = Except.ok (decide (max (max (max
          (((if total ≠ "" then
              countTokens tokF (pyStrip total) (pyGetD req "model" (Value.str ""))
            else 0) : Nat) : Int)
          f1) f2) f3 > t)) := by
  simp [TokenCountRule.evaluate, hm, hg, h1, h2, h3]

/-- C8 witness: 3 estimated tokens strictly exceed a threshold of 2. -/
theorem C8_witness :
    TokenCountRule.evaluate 2 (fun _ => Option.none) reqC8 = Except.ok true := by
  have h := C8_token_threshold 2 (fun _ => Option.none) reqC8
      [Value.dict [("content", Value.str "abcdefghi")]] "abcdefghi " 0 0 0
      rfl rfl rfl rfl rfl
  rw [h]
  rfl
